import Mathlib

/-!
Verification development for the PL→Xero bridge (Node.js service).

The repository's core logic is shallowly embedded below:

* `invoiceHelpers.js` : `mapVatToTaxType`, `buildLineItems`, the legacy
  `buildInvoicePayload` date logic;
* `invoiceService.js` : `toBool`, `deriveContext`, `buildInvoiceModel`,
  `maybeMarkAsPaid`, `maybeEmailInvoice`, `createInvoiceFromPlPayload`;
* `xero-bridge.js` : `extractOrderNumberFromReference`;
* `xeroClient.js` : `hasValidRefresh`, `refreshWithAxios`'s token merge,
  `ensureXeroReady` as a state/oracle transition function.

JavaScript numbers are modelled exactly as scaled decimals (`JsNum`, an
integer numerator with a power-of-ten denominator exponent), with
`none : Option JsNum` playing the role of `NaN` where a parse can fail.
`parseFloat` results are always finite decimals, so this representation is
exact; JS `===` on numbers is value equality of the decimals (`JsNum.numEq`).
Strings model JS strings, with `""` standing for absent/undefined fields
wherever the source only ever tests them for truthiness.  Network and
file-system effects are modelled by oracle records supplying each outbound
call's result, plus explicit state and event traces.
-/

namespace PLXero

/-! ### Exact decimal numbers -/

/-- An exact decimal `num / 10 ^ exp`, the result type of JS number parsing
and arithmetic in this development. -/
structure JsNum where
  num : Int
  exp : ℕ
  deriving DecidableEq, Repr

def pow10 : ℕ → Int
  | 0 => 1
  | n + 1 => 10 * pow10 n

/-- JS `===` on (non-NaN) numbers: value equality of the two decimals. -/
def JsNum.numEq (a b : JsNum) : Bool :=
  a.num * pow10 b.exp = b.num * pow10 a.exp

def JsNum.ofInt (n : Int) : JsNum := ⟨n, 0⟩

def JsNum.neg (a : JsNum) : JsNum := ⟨-a.num, a.exp⟩

/-- JS `+` on (non-NaN) numbers, exact. -/
def JsNum.add (a b : JsNum) : JsNum :=
  ⟨a.num * pow10 b.exp + b.num * pow10 a.exp, a.exp + b.exp⟩

/-- Display rendering used only inside human-readable description strings
(no claim depends on the exact text of a rendered number). -/
def JsNum.render (a : JsNum) : String :=
  if a.exp = 0 then toString a.num
  else toString a.num ++ "e-" ++ toString a.exp

/-! ### JS number parsing (`parseFloat`), modelled exactly

`parseFloat` skips leading whitespace, then reads the longest prefix of the
form `[+-] digits [. digits] [eE [+-] digits]`; if no mantissa digit is read
the result is `NaN` (here `none`).  Trailing garbage is ignored, as in JS. -/

def isWsChar (c : Char) : Bool :=
  c = ' ' || c = '\t' || c = '\n' || c = '\r'

def digitsVal (ds : List Char) : ℕ :=
  ds.foldl (fun a c => a * 10 + (c.toNat - 48)) 0

/-- Parse an optional exponent suffix (`e`/`E`, optional sign, digits);
returns 0 when the suffix is absent or malformed (JS then stops before it). -/
def expVal (l : List Char) : Int :=
  match l with
  | c :: r =>
    if c = 'e' || c = 'E' then
      match r with
      | '-' :: r2 =>
        let ds := r2.takeWhile Char.isDigit
        if ds = [] then 0 else -(digitsVal ds : Int)
      | '+' :: r2 =>
        let ds := r2.takeWhile Char.isDigit
        if ds = [] then 0 else (digitsVal ds : Int)
      | _ =>
        let ds := r.takeWhile Char.isDigit
        if ds = [] then 0 else (digitsVal ds : Int)
    else 0
  | [] => 0

def jsParseFloat (s : String) : Option JsNum :=
  let l := s.data.dropWhile isWsChar
  let signAndRest : Bool × List Char :=
    match l with
    | '-' :: r => (true, r)
    | '+' :: r => (false, r)
    | _ => (false, l)
  let isNegSign := signAndRest.1
  let l1 := signAndRest.2
  let ip := l1.takeWhile Char.isDigit
  let l2 := l1.dropWhile Char.isDigit
  let fracAndRest : List Char × List Char :=
    match l2 with
    | '.' :: r => (r.takeWhile Char.isDigit, r.dropWhile Char.isDigit)
    | _ => ([], l2)
  let fp := fracAndRest.1
  let l3 := fracAndRest.2
  if ip = [] ∧ fp = [] then none
  else
    let mant : JsNum :=
      ⟨(digitsVal ip : Int) * pow10 fp.length + (digitsVal fp : Int), fp.length⟩
    let e := expVal l3
    let scaled : JsNum :=
      if 0 ≤ e then ⟨mant.num * pow10 e.toNat, mant.exp⟩
      else ⟨mant.num, mant.exp + (-e).toNat⟩
    some (if isNegSign then scaled.neg else scaled)

/-! ### invoiceHelpers.js : tax mapping -/

/-- Model of `mapVatToTaxType` from invoiceHelpers.js: `parseFloat(vatRateStr || "0")`;
`NaN → "OUTPUT2"`, `rate === 0 → "EXEMPTOUTPUT"`, `rate === 20 → "OUTPUT2"`,
`rate === 5 → "REDUCED"`, anything else `→ "OUTPUT2"`. -/
def mapVatToTaxType (vatRateStr : String) : String :=
  match jsParseFloat (if vatRateStr = "" then "0" else vatRateStr) with
  | none => "OUTPUT2"
  | some rate =>
    if rate.numEq (JsNum.ofInt 0) then "EXEMPTOUTPUT"
    else if rate.numEq (JsNum.ofInt 20) then "OUTPUT2"
    else if rate.numEq (JsNum.ofInt 5) then "REDUCED"
    else "OUTPUT2"

/-! ### invoiceService.js : boolean coercion and payload model -/

/-- ASCII `String.prototype.toLowerCase` (the source only compares against
ASCII literals). -/
def jsToLowerChar (c : Char) : Char :=
  if 'A' ≤ c ∧ c ≤ 'Z' then Char.ofNat (c.toNat + 32) else c

def jsToLower (s : String) : String :=
  String.mk (s.data.map jsToLowerChar)

/-- JS `String.prototype.trim` (whitespace on both ends). -/
def jsTrim (s : String) : String :=
  String.mk (((s.data.dropWhile isWsChar).reverse.dropWhile isWsChar).reverse)

/-- A JS value as far as the flag fields are concerned: a literal boolean,
a string, `null`, or `undefined` (absent). -/
inductive JsVal
  | vBool (b : Bool)
  | vStr (s : String)
  | vNull
  | vUndef
  deriving DecidableEq, Repr

/-- Model of `toBool` from invoiceService.js: literal booleans pass through; `null` and
`undefined` give `false`; otherwise the value is stringified, trimmed,
lowercased and compared against `"true"`, `"1"`, `"yes"`. -/
def toBool (val : JsVal) : Bool :=
  match val with
  | JsVal.vBool b => b
  | JsVal.vNull => false
  | JsVal.vUndef => false
  | JsVal.vStr s =>
    let t := jsToLower (jsTrim s)
    t = "true" || t = "1" || t = "yes"

/-- One entry of `order_detail.items`.  All fields are JS-optional; `""`
models an absent/empty string field, while `quantity` keeps `Option` because
the source applies `?? "1"` (nullish coalescing) to it. -/
structure Item where
  quantity : Option String := none
  price : String := ""
  title : String := ""
  detail : String := ""
  vat : String := ""
  deriving DecidableEq, Repr

/-- The `order_detail.items` field: absent/falsy, present but not of JS
`typeof === "object"`, or an object modelled as a key-ordered association
list (`Object.keys` order). -/
inductive ItemsField
  | absent
  | notObject
  | itemsMap (m : List (String × Item))
  deriving DecidableEq, Repr

structure PlOrder where
  customer_name : String := ""
  order_contact : String := ""
  customer_email : String := ""
  order_contact_email : String := ""
  customer_category : String := ""
  order_tot_incvat : String := ""
  order_total : String := ""
  order_vat : String := ""
  deriving DecidableEq, Repr

structure OrderDetail where
  customer_name : String := ""
  order_contact : String := ""
  order_contact_email : String := ""
  customer_email : String := ""
  order_date_due : String := ""
  order_total : String := ""
  order_vat : String := ""
  items : ItemsField := ItemsField.absent
  deriving DecidableEq, Repr

structure Tracking where
  name : String
  option : String
  deriving DecidableEq, Repr

structure LineItem where
  description : String
  quantity : JsNum
  unitAmount : JsNum
  accountCode : String
  taxType : String
  tracking : Option (List Tracking) := none
  deriving DecidableEq, Repr

/-- The inbound Power Automate / PrintLogic payload.  A missing `pl_order` or
`order_detail` is modelled by the all-defaults record (the source destructures
them with `= {}` defaults); `lineItems` is `none` when absent or not an
array. -/
structure Payload where
  template : String := ""
  logicSource : String := ""
  order_po : String := ""
  order_number : String := ""
  pl_order : PlOrder := {}
  order_detail : OrderDetail := {}
  markAsPaid : JsVal := JsVal.vUndef
  emailCustomer : JsVal := JsVal.vUndef
  lineItems : Option (List LineItem) := none
  deriving DecidableEq, Repr

/-- The relevant `process.env` configuration read by invoiceService.js
(`XERO_BRAND_EDINBURGH`, `XERO_STRIPE_ACCOUNT`, `XERO_STRIPE_ACCOUNT_CODE`)
and invoiceHelpers.js (`XERO_SALES_ACCOUNT`, defaulted to `"200"`). -/
structure Env where
  brandEdinburgh : Option String := none
  stripeAccount : Option String := none
  stripeAccountCode : Option String := none
  salesAccount : String := "200"
  deriving DecidableEq, Repr

/-- JS truthiness filter for an env string: `x || undefined`. -/
def envOrNone (o : Option String) : Option String :=
  match o with
  | some s => if s = "" then none else some s
  | none => none

/-- The clearing-account chain `process.env.XERO_STRIPE_ACCOUNT ||
process.env.XERO_STRIPE_ACCOUNT_CODE || "0002"`. -/
def stripeOf (env : Env) : String :=
  match envOrNone env.stripeAccount with
  | some s => s
  | none =>
    match envOrNone env.stripeAccountCode with
    | some s => s
    | none => "0002"

structure DerivedContext where
  template : String
  logicSource : String
  isWebOrder : Bool
  customerCategory : String
  brandingThemeId : Option String
  brandTrackingOption : String
  markAsPaidFlag : Bool
  emailCustomerFlag : Bool
  stripeAccount : String
  deriving DecidableEq, Repr

/-- Model of `deriveContext` from invoiceService.js. -/
def deriveContext (env : Env) (p : Payload) : DerivedContext :=
  let isWebOrder := if p.order_po = "" then false else p.order_po.startsWith "WEB-"
  let customerCategory0 := p.pl_order.customer_category
  -- tpl = template || customerCategory || ""
  let tpl := if p.template ≠ "" then p.template
             else if customerCategory0 ≠ "" then customerCategory0 else ""
  if tpl = "Edinburgh_Banners" then
    { template := tpl
      logicSource := p.logicSource
      isWebOrder := isWebOrder
      customerCategory := "Edinburgh_Banners"
      brandingThemeId := envOrNone env.brandEdinburgh
      brandTrackingOption := "Edinburgh Banners"
      markAsPaidFlag := toBool p.markAsPaid
      emailCustomerFlag := toBool p.emailCustomer
      stripeAccount := stripeOf env }
  else
    { template := tpl
      logicSource := p.logicSource
      isWebOrder := isWebOrder
      -- customerCategory = customerCategory || tpl || "Default"
      customerCategory := if customerCategory0 ≠ "" then customerCategory0
                          else if tpl ≠ "" then tpl else "Default"
      brandingThemeId := none
      -- brandTrackingOption = tpl || "Default"
      brandTrackingOption := if tpl ≠ "" then tpl else "Default"
      markAsPaidFlag := toBool p.markAsPaid
      emailCustomerFlag := toBool p.emailCustomer
      stripeAccount := stripeOf env }

/-! ### invoiceHelpers.js : line items -/

/-- The body of the `keys.forEach` loop in `buildLineItems`: one output line
per item-map entry. -/
def mkLineItem (salesAccount : String) (brandTrackingOption : String)
    (item : Item) : LineItem :=
  let qtyRaw := item.quantity.getD "1"
  let qty := jsParseFloat qtyRaw
  let lineTotal := (jsParseFloat (if item.price = "" then "0" else item.price)).getD (JsNum.ofInt 0)
  let title := if item.title = "" then "Item" else item.title
  let detail := jsTrim item.detail
  let qtyText :=
    match qty with
    | some q => " (Qty " ++ q.render ++ ")"
    | none => ""
  let desc := title ++ qtyText ++ (if detail = "" then "" else " - " ++ detail)
  let taxType := mapVatToTaxType (if item.vat = "" then "0" else item.vat)
  let tracking : Option (List Tracking) :=
    if brandTrackingOption = "" then none
    else some [{ name := "Brand", option := brandTrackingOption }]
  { description := desc
    quantity := JsNum.ofInt 1
    unitAmount := lineTotal
    accountCode := salesAccount
    taxType := taxType
    tracking := tracking }

/-- The derivation branch of `buildLineItems`: map over `order_detail.items`
if it is an object, else return `[]`. -/
def lineItemsFromItems (salesAccount brandTrackingOption : String)
    (itemsF : ItemsField) : List LineItem :=
  match itemsF with
  | ItemsField.itemsMap m => m.map fun kv => mkLineItem salesAccount brandTrackingOption kv.2
  | _ => []

/-- Model of `buildLineItems(plPayload, brandTrackingOption)` from
invoiceHelpers.js:
a non-empty explicit `lineItems` array is returned verbatim; otherwise lines
are derived from `order_detail.items`. -/
def buildLineItems (salesAccount : String) (p : Payload)
    (brandTrackingOption : String) : List LineItem :=
  match p.lineItems with
  | some ls =>
    if 0 < ls.length then ls
    else lineItemsFromItems salesAccount brandTrackingOption p.order_detail.items
  | none => lineItemsFromItems salesAccount brandTrackingOption p.order_detail.items

/-! ### invoiceService.js : invoice model builder -/

structure InvoiceModel where
  type : String
  contactName : String
  contactEmail : Option String
  lineItems : List LineItem
  date : String
  dueDate : String
  reference : String
  status : String
  lineAmountTypes : String
  brandingThemeID : Option String
  deriving DecidableEq, Repr

/-- JS `Array.prototype.join(" ")` on the `referenceParts` array. -/
def joinSpace : List String → String
  | [] => ""
  | [x] => x
  | x :: xs => x ++ " " ++ joinSpace xs

/-- The `referenceParts` construction of `buildInvoiceModel`: push `order_po`
if truthy, push `"[" + order_number + "]"` if truthy, join with a space. -/
def buildReference (order_po order_number : String) : String :=
  joinSpace ((if order_po ≠ "" then [order_po] else [])
    ++ (if order_number ≠ "" then ["[" ++ order_number ++ "]"] else []))

/-- Model of `buildInvoiceModel(payload, context)` from invoiceService.js.  The current
date (`new Date().toISOString().slice(0, 10)`) is passed in as `todayIso`. -/
def buildInvoiceModel (salesAccount : String) (todayIso : String)
    (p : Payload) (ctx : DerivedContext) : InvoiceModel :=
  let contactName :=
    if p.pl_order.customer_name ≠ "" then p.pl_order.customer_name
    else if p.order_detail.customer_name ≠ "" then p.order_detail.customer_name
    else if p.pl_order.order_contact ≠ "" then p.pl_order.order_contact
    else if p.order_detail.order_contact ≠ "" then p.order_detail.order_contact
    else "Unknown Customer"
  let contactEmail : Option String :=
    if p.pl_order.customer_email ≠ "" then some p.pl_order.customer_email
    else if p.pl_order.order_contact_email ≠ "" then some p.pl_order.order_contact_email
    else if p.order_detail.order_contact_email ≠ "" then some p.order_detail.order_contact_email
    else if p.order_detail.customer_email ≠ "" then some p.order_detail.customer_email
    else none
  let dueDate :=
    if p.order_detail.order_date_due ≠ "" ∧ p.order_detail.order_date_due ≠ "0000-00-00"
    then p.order_detail.order_date_due
    else todayIso
  let reference := buildReference p.order_po p.order_number
  let lineItems := buildLineItems salesAccount p ctx.brandTrackingOption
  { type := "ACCREC"
    contactName := contactName
    contactEmail := contactEmail
    lineItems := lineItems
    date := todayIso
    dueDate := dueDate
    reference := reference
    status := "AUTHORISED"
    lineAmountTypes := "Exclusive"
    brandingThemeID := ctx.brandingThemeId }

/-! ### invoiceHelpers.js : legacy `buildInvoicePayload` date logic

The legacy builder computes `isoDate = today.toISOString().slice(0, 10)` and
a due date that is the PL-supplied `order_date_due` when truthy, else the ISO
date of `today.getTime() + 10 * 24 * 60 * 60 * 1000`.  Time is modelled as
epoch milliseconds, and the `Date → yyyy-mm-dd` formatter is an explicit
parameter `isoOf` (a library function, not repository code). -/

def buildInvoicePayloadDates (isoOf : ℕ → String) (nowMs : ℕ)
    (order_date_due : String) : String × String :=
  let isoDate := isoOf nowMs
  let dueDate :=
    if order_date_due ≠ "" then order_date_due
    else isoOf (nowMs + 10 * 24 * 60 * 60 * 1000)
  (isoDate, dueDate)

/-! ### xero-bridge.js : order-number extraction

`extractOrderNumberFromReference` matches the reference against the regex
`\[(\d+)\]` and returns the first captured digit group, else `null`.  The
regex engine is modelled directly: at each position, a match requires `'['`,
then a maximal non-empty digit run, then `']'` (backtracking inside `\d+`
cannot help, since every shorter digit run is followed by a digit, which is
never `']'`). -/

/-- Try to match `\[(\d+)\]` at the head of the character list: an opening
bracket, a non-empty maximal digit run, then a closing bracket. -/
def bracketAt (l : List Char) : Option (List Char) :=
  match l with
  | c :: rest =>
    if c = '[' then
      if rest.takeWhile Char.isDigit ≠ []
          ∧ (rest.dropWhile Char.isDigit).head? = some ']'
      then some (rest.takeWhile Char.isDigit)
      else none
    else none
  | [] => none

/-- Leftmost match of `\[(\d+)\]` anywhere in the character list. -/
def findBracket : List Char → Option (List Char)
  | [] => none
  | c :: rest =>
    match bracketAt (c :: rest) with
    | some ds => some ds
    | none => findBracket rest

/-- Model of `extractOrderNumberFromReference(ref)` from xero-bridge.js (an
empty
string is falsy and returns `null`, which coincides with the regex finding
no match). -/
def extractOrderNumberFromReference (ref : String) : Option String :=
  (findBracket ref.data).map fun ds => String.mk ds

/-! ### xeroClient.js : token lifecycle manager

A token set keeps the vendor's known fields plus arbitrary unknown fields
(`extra`, an association list).  `Option` fields model JSON keys that may be
absent.  The client/file-system state is the in-memory token set, the on-disk
token file, and the cached tenant id; outbound calls (the token endpoint and
`updateTenants`) are supplied by an oracle, and the observable effects of a
call are returned as an event trace. -/

structure TokenSet where
  access_token : Option String := none
  refresh_token : Option String := none
  expires_at : Option ℕ := none
  extra : List (String × String) := []
  deriving DecidableEq, Repr

/-- The JSON body returned by the vendor token endpoint. -/
structure RefreshData where
  access_token : Option String := none
  refresh_token : Option String := none
  expires_in : Option ℕ := none
  extra : List (String × String) := []
  deriving DecidableEq, Repr

/-- Model of `hasValidRefresh(tokenSet)`: the refresh credential is a string of
positive length (`none` covers both an absent key and a non-string value). -/
def hasValidRefreshTs (ts : TokenSet) : Bool :=
  match ts.refresh_token with
  | some r => 0 < r.length
  | none => false

def hasValidRefreshOpt (t : Option TokenSet) : Bool :=
  match t with
  | some ts => hasValidRefreshTs ts
  | none => false

/-- Model of `isTokenExpiredLocal(tokenSet)` (unknown expiry counts as not
expired). -/
def isTokenExpiredLocal (ts : TokenSet) (nowSec : ℕ) : Bool :=
  match ts.expires_at with
  | some e => e ≤ nowSec
  | none => false

/-- Unknown-field merge of the object spread `{ ...tokenSet, ...data }`:
keys present in `data` win, other keys of `tokenSet` survive. -/
def mergeExtra (old new : List (String × String)) : List (String × String) :=
  (old.filter fun kv => !((new.map Prod.fst).contains kv.1)) ++ new

/-- The `newTokenSet` built by `refreshWithAxios`:
`{ ...tokenSet, ...data, expires_at: nowSec + (data.expires_in || 1800) }`.
Note `||` treats a declared `0` the same as an absent field. -/
def mergeToken (old : TokenSet) (nowSec : ℕ) (data : RefreshData) : TokenSet :=
  { access_token :=
      match data.access_token with
      | some a => some a
      | none => old.access_token
    refresh_token :=
      match data.refresh_token with
      | some r => some r
      | none => old.refresh_token
    expires_at :=
      some (nowSec + (match data.expires_in with
        | some n => if n = 0 then 1800 else n
        | none => 1800))
    extra := mergeExtra old.extra data.extra }

structure XeroState where
  memToken : Option TokenSet := none
  diskToken : Option TokenSet := none
  tenantId : Option String := none
  deriving DecidableEq, Repr

/-- Results of the two outbound calls `ensureXeroReady` can make. -/
structure XeroOracle where
  refreshResult : Except String RefreshData
  tenantsResult : Except String (List String)
  deriving Repr

/-- Observable effects of one `ensureXeroReady` call. -/
inductive XeroEvent
  | refreshCall
  | savedToken (ts : TokenSet)
  deriving DecidableEq, Repr

def notAuthMsg : String :=
  "No Xero refresh token available. Re-authenticate Xero via the connect endpoint."
def refreshFailedMsg : String :=
  "Failed to refresh Xero token. You may need to re-connect Xero via the browser auth flow."
def tenantsFailedMsg : String := "Failed to fetch Xero tenants after token refresh."
def noTenantMsg : String := "No Xero tenants available. Check the Xero org connection."

/-- Steps 2–3 of `ensureXeroReady`: use the in-memory token set if it has a
usable refresh credential, else fall back to the on-disk one (which is also
loaded into memory via `setTokenSet`). -/
def loadStep (st : XeroState) : Option TokenSet × XeroState :=
  if hasValidRefreshOpt st.memToken then (st.memToken, st)
  else
    match st.diskToken with
    | some stored => (some stored, { st with memToken := some stored })
    | none => (st.memToken, st)

/-- Model of `ensureXeroReady()` from xeroClient.js as a state/oracle
transition:
load a token set (memory, then disk), fail without a usable refresh
credential, otherwise always call the vendor token endpoint, persist the
merged result, resolve tenants and return the first tenant id. -/
def ensureXeroReady (nowSec : ℕ) (o : XeroOracle) (st : XeroState) :
    Except String String × XeroState × List XeroEvent :=
  let ls := loadStep st
  match ls.1 with
  | none => (Except.error notAuthMsg, ls.2, [])
  | some ts =>
    if hasValidRefreshTs ts then
      match o.refreshResult with
      | Except.error _ => (Except.error refreshFailedMsg, ls.2, [XeroEvent.refreshCall])
      | Except.ok data =>
        let newTok := mergeToken ts nowSec data
        let st2 : XeroState :=
          { ls.2 with memToken := some newTok, diskToken := some newTok }
        let evs := [XeroEvent.refreshCall, XeroEvent.savedToken newTok]
        match o.tenantsResult with
        | Except.error _ => (Except.error tenantsFailedMsg, st2, evs)
        | Except.ok [] => (Except.error noTenantMsg, st2, evs)
        | Except.ok (c :: _) => (Except.ok c, { st2 with tenantId := some c }, evs)
    else (Except.error notAuthMsg, ls.2, [])

/-- Two sequential `ensureXeroReady` calls, threading the client/disk state. -/
def ensureXeroReadyTwice (now1 now2 : ℕ) (o1 o2 : XeroOracle) (st : XeroState) :
    (Except String String × XeroState × List XeroEvent)
      × (Except String String × XeroState × List XeroEvent) :=
  let r1 := ensureXeroReady now1 o1 st
  (r1, ensureXeroReady now2 o2 r1.2.1)

/-! ### invoiceService.js : optional follow-ups and the main entry point -/

structure CreatedInvoice where
  invoiceID : Option String := none
  deriving DecidableEq, Repr

/-- Results of the outbound Xero calls made by `createInvoiceFromPlPayload`
and its follow-ups. -/
structure InvOracle where
  ensureReady : Except String String
  createInvoices : Except String (List CreatedInvoice)
  createPayments : Except String Unit
  emailInvoice : Except String Unit
  deriving Repr

inductive FollowUpEvent
  | paymentCreated
  | paymentFailed (msg : String)
  | emailSent
  | emailFailed (msg : String)
  deriving DecidableEq, Repr

def orZeroStr (s : String) : String := if s = "" then "0" else s

/-- Approximation of `Number.prototype.toFixed(2)` followed by `parseFloat`:
round the exact decimal to two fractional digits (half away from zero on the
positive side).  No claim depends on the rounded value. -/
def JsNum.toFixed2Round (a : JsNum) : JsNum :=
  if a.exp ≤ 2 then a
  else ⟨Int.fdiv (2 * a.num + pow10 (a.exp - 2)) (2 * pow10 (a.exp - 2)), 2⟩

/-- The `totalIncVatStr` / `amount` pipeline of `maybeMarkAsPaid`:
`pl_order.order_tot_incvat`, else the sum of `pl_order`'s total and VAT when
both are truthy, else the sum of `order_detail`'s total and VAT when both are
truthy, else no amount.  `none` also covers a branch that produced `"NaN"`
(which is truthy, stopping the `||` chain, and then fails `isNaN`). -/
def computeAmountIncVat (po : PlOrder) (od : OrderDetail) : Option JsNum :=
  if po.order_tot_incvat ≠ "" then jsParseFloat po.order_tot_incvat
  else if po.order_total ≠ "" ∧ po.order_vat ≠ "" then
    match jsParseFloat (orZeroStr po.order_total),
          jsParseFloat (orZeroStr po.order_vat) with
    | some a, some b => some ((a.add b).toFixed2Round)
    | _, _ => none
  else if od.order_total ≠ "" ∧ od.order_vat ≠ "" then
    match jsParseFloat (orZeroStr od.order_total),
          jsParseFloat (orZeroStr od.order_vat) with
    | some a, some b => some ((a.add b).toFixed2Round)
    | _, _ => none
  else none

/-- Model of `maybeMarkAsPaid`: skip when the flag is off, the created invoice or its
id is missing, or no usable amount can be determined; otherwise call
`createPayments`, catching and logging any error. -/
def maybeMarkAsPaid (o : InvOracle) (p : Payload) (ctx : DerivedContext)
    (created : Option CreatedInvoice) : List FollowUpEvent :=
  if ¬ ctx.markAsPaidFlag then []
  else
    match created with
    | none => []
    | some inv =>
      if inv.invoiceID.getD "" = "" then []
      else
        match computeAmountIncVat p.pl_order p.order_detail with
        | none => []
        | some amt =>
          if amt.num = 0 then []
          else
            match o.createPayments with
            | Except.ok _ => [FollowUpEvent.paymentCreated]
            | Except.error e => [FollowUpEvent.paymentFailed e]

/-- Model of `maybeEmailInvoice`: skip when the flag is off or the created invoice or
its id is missing; otherwise call `emailInvoice`, catching any error. -/
def maybeEmailInvoice (o : InvOracle) (ctx : DerivedContext)
    (created : Option CreatedInvoice) : List FollowUpEvent :=
  if ¬ ctx.emailCustomerFlag then []
  else
    match created with
    | none => []
    | some inv =>
      if inv.invoiceID.getD "" = "" then []
      else
        match o.emailInvoice with
        | Except.ok _ => [FollowUpEvent.emailSent]
        | Except.error e => [FollowUpEvent.emailFailed e]

structure CreateResult where
  success : Bool
  invoice : Option CreatedInvoice
  error : Option String
  deriving DecidableEq, Repr

/-- Model of `createInvoiceFromPlPayload(plPayload)`: derive the context, build the
invoice, `ensureXeroReady` (an error here rejects the whole call — the
`try` block starts after it), then `createInvoices` inside `try`/`catch`;
a create error yields `{ success: false }`, a create success yields
`{ success: true }` after running the two catch-all follow-ups. -/
def createInvoiceFromPlPayload (env : Env) (todayIso : String) (o : InvOracle)
    (p : Payload) : Except String (CreateResult × List FollowUpEvent) :=
  let ctx := deriveContext env p
  let _invoice := buildInvoiceModel env.salesAccount todayIso p ctx
  match o.ensureReady with
  | Except.error e => Except.error e
  | Except.ok _tid =>
    match o.createInvoices with
    | Except.error e =>
      Except.ok ({ success := false, invoice := none, error := some e }, [])
    | Except.ok invs =>
      let created := invs.head?
      let ev1 := maybeMarkAsPaid o p ctx created
      let ev2 := maybeEmailInvoice o ctx created
      Except.ok ({ success := true, invoice := created, error := none }, ev1 ++ ev2)

/-! ## Shared concrete fixtures and helper lemmas -/

def itemFixture : Item :=
  { quantity := some "3", price := "12.5", title := "Banner", detail := " 2x1m ", vat := "20" }

def itemZeroQty : Item :=
  { quantity := some "0", price := "5.00", title := "Shipping" }

def payloadItemsFixture : Payload :=
  { order_number := "6662", order_po := "WEB-1532TEST",
    order_detail := { items := ItemsField.itemsMap [("1", itemFixture)] } }

def payloadZeroQtyFixture : Payload :=
  { order_number := "6663",
    order_detail := { items := ItemsField.itemsMap [("1", itemZeroQty)] } }

def payloadNamesEmptyA : Payload := { order_number := "6789" }

def payloadNamesEmptyB : Payload := { order_number := "1234" }

lemma mem_buildLineItems_of_noEscape {acct bto : String} {p : Payload} {li : LineItem}
    (hesc : p.lineItems = none ∨ p.lineItems = some [])
    (hmem : li ∈ buildLineItems acct p bto) :
    li ∈ lineItemsFromItems acct bto p.order_detail.items := by
  rcases hesc with h | h <;> simp only [buildLineItems, h] at hmem <;> simpa using hmem

lemma buildLineItems_eq_fromItems {acct bto : String} {p : Payload}
    (hesc : p.lineItems = none ∨ p.lineItems = some []) :
    buildLineItems acct p bto = lineItemsFromItems acct bto p.order_detail.items := by
  rcases hesc with h | h <;> simp [buildLineItems, h]

/-! ## C6 : boolean coercion -/

/-- C6: `toBool` returns `true` for the literal boolean `true` and for text
whose trimmed, lowercased form is `"true"`, `"1"` or `"yes"`; every other
input — including `null`/`undefined` (absent), `"no"`, `"0"` and the literal
boolean `false` — gives `false`; and `deriveContext` applies exactly this
coercion to both the mark-as-paid and email-customer flags. -/
theorem toBool_coercion_C6 :
    toBool (JsVal.vBool true) = true
    ∧ toBool (JsVal.vBool false) = false
    ∧ toBool JsVal.vNull = false
    ∧ toBool JsVal.vUndef = false
    ∧ (∀ s : String, toBool (JsVal.vStr s) =
        (jsToLower (jsTrim s) = "true" || jsToLower (jsTrim s) = "1"
          || jsToLower (jsTrim s) = "yes"))
    ∧ toBool (JsVal.vStr "true") = true
    ∧ toBool (JsVal.vStr "TRUE") = true
    ∧ toBool (JsVal.vStr "1") = true
    ∧ toBool (JsVal.vStr "yes") = true
    ∧ toBool (JsVal.vStr "YES") = true
    ∧ toBool (JsVal.vStr "no") = false
    ∧ toBool (JsVal.vStr "0") = false
    ∧ ∀ (env : Env) (p : Payload),
        (deriveContext env p).markAsPaidFlag = toBool p.markAsPaid
        ∧ (deriveContext env p).emailCustomerFlag = toBool p.emailCustomer := by
  refine ⟨rfl, rfl, rfl, rfl, fun s => rfl, by decide, by decide, by decide,
    by decide, by decide, by decide, by decide, fun env p => ?_⟩
  unfold deriveContext
  dsimp only
  repeat' split
  all_goals exact ⟨rfl, rfl⟩

/-! ## C3 : VAT → tax-code mapping -/

/-- C3 counterexample: the claim says missing (absent/empty) input defaults to
the standard-rate code `"OUTPUT2"`, but the code substitutes the literal
`"0"` for a falsy input, which parses to 0 and yields the exempt code. -/
theorem mapVatToTaxType_missing_cex_C3 :
    mapVatToTaxType "" = "EXEMPTOUTPUT" ∧ mapVatToTaxType "" ≠ "OUTPUT2" := by decide

/-- C3 (amended): inputs parsing to exactly 0 / 5 / 20 map to the exempt,
reduced and standard codes respectively; any other numeric value and any
unparsable non-empty input maps to the standard code; missing (absent/empty)
input is defaulted to the literal `"0"` and therefore maps to the exempt
code, not the standard one. -/
theorem mapVatToTaxType_mapping_C3 :
    (∀ (s : String) (q : JsNum), jsParseFloat s = some q →
      mapVatToTaxType s =
        (if q.numEq (JsNum.ofInt 0) then "EXEMPTOUTPUT"
         else if q.numEq (JsNum.ofInt 20) then "OUTPUT2"
         else if q.numEq (JsNum.ofInt 5) then "REDUCED"
         else "OUTPUT2"))
    ∧ (∀ s : String, s ≠ "" → jsParseFloat s = none → mapVatToTaxType s = "OUTPUT2")
    ∧ mapVatToTaxType "" = "EXEMPTOUTPUT"
    ∧ mapVatToTaxType "0" = "EXEMPTOUTPUT"
    ∧ mapVatToTaxType "5" = "REDUCED"
    ∧ mapVatToTaxType "20" = "OUTPUT2"
    ∧ mapVatToTaxType "17.5" = "OUTPUT2" := by
  refine ⟨fun s q h => ?_, fun s hs h => ?_, by decide, by decide, by decide,
    by decide, by decide⟩
  · by_cases hs : s = ""
    · subst hs; simp [jsParseFloat] at h
    · unfold mapVatToTaxType
      rw [if_neg hs, h]
  · unfold mapVatToTaxType
    rw [if_neg hs, h]

/-- C3 witness: the amended theorem applied at `"7.5"` (parses to 7.5, an
"other numeric value") and at `"abc"` (unparsable). -/
theorem mapVatToTaxType_mapping_C3_witness :
    mapVatToTaxType "7.5" = "OUTPUT2" ∧ mapVatToTaxType "abc" = "OUTPUT2" := by
  constructor
  · rw [mapVatToTaxType_mapping_C3.1 "7.5" ⟨75, 1⟩ (by decide)]; decide
  · exact mapVatToTaxType_mapping_C3.2.1 "abc" (by decide) (by decide)

/-! ## C2 : pricing convention -/

/-- C2: when the explicit `lineItems` escape hatch is not taken, every entry
of the item map yields a line whose quantity is exactly 1 regardless of the
input quantity, and whose unit amount is the parsed `price` field (the full
ex-VAT line total under the code's parse pipeline, `parseFloat(price || "0")
|| 0`), independent of the input quantity. -/
theorem buildLineItems_pricing_C2 (acct bto : String) (p : Payload)
    (m : List (String × Item))
    (hesc : p.lineItems = none ∨ p.lineItems = some [])
    (hitems : p.order_detail.items = ItemsField.itemsMap m) :
    buildLineItems acct p bto = m.map (fun kv => mkLineItem acct bto kv.2)
    ∧ ∀ it : Item,
        (mkLineItem acct bto it).quantity = JsNum.ofInt 1
        ∧ (mkLineItem acct bto it).unitAmount
            = (jsParseFloat (if it.price = "" then "0" else it.price)).getD (JsNum.ofInt 0)
        ∧ ∀ q : Option String,
            (mkLineItem acct bto { it with quantity := q }).quantity = JsNum.ofInt 1
            ∧ (mkLineItem acct bto { it with quantity := q }).unitAmount
                = (mkLineItem acct bto it).unitAmount := by
  refine ⟨?_, fun it => ⟨rfl, rfl, fun q => ⟨rfl, rfl⟩⟩⟩
  rw [buildLineItems_eq_fromItems hesc, hitems]
  rfl

/-- C2 witness: the theorem applied to a one-item payload whose item has
quantity `"3"` and price `"12.5"`; the emitted line has quantity 1 and unit
amount 12.5. -/
theorem buildLineItems_pricing_C2_witness :
    buildLineItems "200" payloadItemsFixture "Edinburgh Banners"
      = [mkLineItem "200" "Edinburgh Banners" itemFixture]
    ∧ (mkLineItem "200" "Edinburgh Banners" itemFixture).quantity = JsNum.ofInt 1
    ∧ (mkLineItem "200" "Edinburgh Banners" itemFixture).unitAmount = JsNum.mk 125 1 := by
  have h := buildLineItems_pricing_C2 "200" "Edinburgh Banners" payloadItemsFixture
    [("1", itemFixture)] (Or.inl rfl) rfl
  refine ⟨by simpa using h.1, (h.2 itemFixture).1, ?_⟩
  rw [(h.2 itemFixture).2.1]; decide

/-! ## C5 : one line per item key, no filtering -/

/-- C5: when the escape hatch is not taken, `buildLineItems` emits exactly one
line per key of the item map (quantity-zero items included), and an absent or
non-object item collection yields the empty list rather than an error. -/
theorem buildLineItems_per_key_C5 (acct bto : String) (p : Payload)
    (hesc : p.lineItems = none ∨ p.lineItems = some []) :
    (∀ m, p.order_detail.items = ItemsField.itemsMap m →
        (buildLineItems acct p bto).length = m.length)
    ∧ ((p.order_detail.items = ItemsField.absent
        ∨ p.order_detail.items = ItemsField.notObject) →
        buildLineItems acct p bto = []) := by
  constructor
  · intro m hm
    rw [buildLineItems_eq_fromItems hesc, hm]
    simp [lineItemsFromItems]
  · intro hm
    rw [buildLineItems_eq_fromItems hesc]
    rcases hm with h | h <;> rw [h] <;> rfl

/-- C5 witness: a quantity-0 item with a non-empty price still yields exactly
one line, and the all-defaults payload (absent item collection) yields `[]`. -/
theorem buildLineItems_per_key_C5_witness :
    (buildLineItems "200" payloadZeroQtyFixture "Default").length = 1
    ∧ buildLineItems "200" ({} : Payload) "Default" = [] := by
  constructor
  · exact (buildLineItems_per_key_C5 "200" "Default" payloadZeroQtyFixture
      (Or.inl rfl)).1 [("1", itemZeroQty)] rfl
  · exact (buildLineItems_per_key_C5 "200" "Default" ({} : Payload)
      (Or.inl rfl)).2 (Or.inl rfl)

/-! ## C10 : brand tracking is always attached to derived lines -/

/-- C10: `deriveContext` always produces a non-empty `brandTrackingOption`
(falling back to the template value or the literal `"Default"`), so every
line item derived from the item map carries a `"Brand"` tracking entry. -/
theorem brandTracking_always_C10 (env : Env) (p : Payload) :
    (deriveContext env p).brandTrackingOption ≠ ""
    ∧ ((p.lineItems = none ∨ p.lineItems = some []) →
        ∀ li ∈ buildLineItems env.salesAccount p (deriveContext env p).brandTrackingOption,
          li.tracking = some [{ name := "Brand",
                                option := (deriveContext env p).brandTrackingOption }]) := by
  have hb : (deriveContext env p).brandTrackingOption ≠ "" := by
    unfold deriveContext
    dsimp only
    repeat' split
    all_goals simp_all
  refine ⟨hb, fun hesc li hmem => ?_⟩
  have hmem2 := mem_buildLineItems_of_noEscape hesc hmem
  cases hit : p.order_detail.items with
  | itemsMap m =>
    rw [hit] at hmem2
    simp only [lineItemsFromItems, List.mem_map] at hmem2
    obtain ⟨kv, _, rfl⟩ := hmem2
    simp only [mkLineItem]
    rw [if_neg hb]
  | absent => rw [hit] at hmem2; simp [lineItemsFromItems] at hmem2
  | notObject => rw [hit] at hmem2; simp [lineItemsFromItems] at hmem2

/-- C10 witness: applied to a payload with an empty template and category, the
tracking option falls back to `"Default"` and the derived line carries it. -/
theorem brandTracking_always_C10_witness :
    (deriveContext {} payloadZeroQtyFixture).brandTrackingOption ≠ ""
    ∧ (mkLineItem ({} : Env).salesAccount
        (deriveContext {} payloadZeroQtyFixture).brandTrackingOption itemZeroQty).tracking
      = some [{ name := "Brand",
                option := (deriveContext {} payloadZeroQtyFixture).brandTrackingOption }] := by
  have h := brandTracking_always_C10 {} payloadZeroQtyFixture
  refine ⟨h.1, h.2 (Or.inl rfl)
    (mkLineItem ({} : Env).salesAccount
      (deriveContext {} payloadZeroQtyFixture).brandTrackingOption itemZeroQty) ?_⟩
  show _ ∈ buildLineItems _ _ _
  have : buildLineItems ({} : Env).salesAccount payloadZeroQtyFixture
      (deriveContext {} payloadZeroQtyFixture).brandTrackingOption
      = [mkLineItem ({} : Env).salesAccount
          (deriveContext {} payloadZeroQtyFixture).brandTrackingOption itemZeroQty] := rfl
  rw [this]
  exact List.mem_singleton.mpr rfl

/-! ## C7 : contact-name fallback -/

/-- C7 counterexample: with all four candidate name fields empty, the contact
name is the fixed literal `"Unknown Customer"` — identical for two payloads
with different order numbers — so the fallback is not synthesized from the
order number as the claim states. -/
theorem contactName_fallback_cex_C7 :
    payloadNamesEmptyA.order_number = "6789"
    ∧ payloadNamesEmptyB.order_number = "1234"
    ∧ payloadNamesEmptyA.pl_order.customer_name = ""
    ∧ payloadNamesEmptyA.order_detail.customer_name = ""
    ∧ payloadNamesEmptyA.pl_order.order_contact = ""
    ∧ payloadNamesEmptyA.order_detail.order_contact = ""
    ∧ (buildInvoiceModel "200" "2026-02-03" payloadNamesEmptyA
        (deriveContext {} payloadNamesEmptyA)).contactName = "Unknown Customer"
    ∧ (buildInvoiceModel "200" "2026-02-03" payloadNamesEmptyB
        (deriveContext {} payloadNamesEmptyB)).contactName = "Unknown Customer" := by
  decide

/-- C7 (amended): the contact name is the first non-empty of the four
candidate fields (order-level customer name, detail-level customer name,
order-level contact, detail-level contact); when all four are absent/empty it
falls back to the fixed literal `"Unknown Customer"` (not a name synthesized
from the order number). -/
theorem contactName_priority_C7 (acct todayIso : String) (p : Payload)
    (ctx : DerivedContext) :
    (p.pl_order.customer_name ≠ "" →
      (buildInvoiceModel acct todayIso p ctx).contactName = p.pl_order.customer_name)
    ∧ (p.pl_order.customer_name = "" → p.order_detail.customer_name ≠ "" →
      (buildInvoiceModel acct todayIso p ctx).contactName = p.order_detail.customer_name)
    ∧ (p.pl_order.customer_name = "" → p.order_detail.customer_name = "" →
      p.pl_order.order_contact ≠ "" →
      (buildInvoiceModel acct todayIso p ctx).contactName = p.pl_order.order_contact)
    ∧ (p.pl_order.customer_name = "" → p.order_detail.customer_name = "" →
      p.pl_order.order_contact = "" → p.order_detail.order_contact ≠ "" →
      (buildInvoiceModel acct todayIso p ctx).contactName = p.order_detail.order_contact)
    ∧ (p.pl_order.customer_name = "" → p.order_detail.customer_name = "" →
      p.pl_order.order_contact = "" → p.order_detail.order_contact = "" →
      (buildInvoiceModel acct todayIso p ctx).contactName = "Unknown Customer") := by
  unfold buildInvoiceModel
  dsimp only
  refine ⟨fun h1 => ?_, fun h1 h2 => ?_, fun h1 h2 h3 => ?_,
    fun h1 h2 h3 h4 => ?_, fun h1 h2 h3 h4 => ?_⟩ <;> simp_all

/-- C7 witness: the amended theorem applied at a payload carrying an
order-level customer name, and at a payload with all four fields empty. -/
theorem contactName_priority_C7_witness :
    (buildInvoiceModel "200" "2026-02-03"
      { payloadNamesEmptyA with pl_order := { customer_name := "Test Customer" } }
      (deriveContext {} payloadNamesEmptyA)).contactName = "Test Customer"
    ∧ (buildInvoiceModel "200" "2026-02-03" payloadNamesEmptyB
        (deriveContext {} payloadNamesEmptyB)).contactName = "Unknown Customer" :=
  ⟨(contactName_priority_C7 "200" "2026-02-03"
      { payloadNamesEmptyA with pl_order := { customer_name := "Test Customer" } }
      (deriveContext {} payloadNamesEmptyA)).1 (by decide),
   (contactName_priority_C7 "200" "2026-02-03" payloadNamesEmptyB
      (deriveContext {} payloadNamesEmptyB)).2.2.2.2 rfl rfl rfl rfl⟩

/-! ## C8 : due-date rules -/

/-- C8: `buildInvoiceModel` uses the vendor-supplied due date unless it is the
zero-date sentinel `"0000-00-00"`, in which case the current date is
substituted; the legacy `buildInvoicePayload` computes the due date as the
issue date plus a fixed 10-day offset (in epoch milliseconds) when no vendor
due date is supplied. -/
theorem dueDate_rules_C8 :
    (∀ (acct todayIso : String) (p : Payload) (ctx : DerivedContext),
      p.order_detail.order_date_due ≠ "" →
      (buildInvoiceModel acct todayIso p ctx).dueDate =
        (if p.order_detail.order_date_due = "0000-00-00" then todayIso
         else p.order_detail.order_date_due))
    ∧ (∀ (isoOf : ℕ → String) (nowMs : ℕ),
        (buildInvoicePayloadDates isoOf nowMs "").1 = isoOf nowMs
        ∧ (buildInvoicePayloadDates isoOf nowMs "").2
            = isoOf (nowMs + 10 * 24 * 60 * 60 * 1000)) := by
  constructor
  · intro acct todayIso p ctx h
    unfold buildInvoiceModel
    dsimp only
    by_cases hz : p.order_detail.order_date_due = "0000-00-00" <;> simp_all
  · intro isoOf nowMs
    exact ⟨rfl, rfl⟩

/-- C8 witness: the sentinel `"0000-00-00"` is replaced by the current date, a
real vendor date is kept, and with no vendor date the legacy builder's due
date is the epoch formatter applied at `nowMs + 864000000`. -/
theorem dueDate_rules_C8_witness :
    (buildInvoiceModel "200" "2026-02-03"
      { payloadNamesEmptyA with order_detail := { order_date_due := "0000-00-00" } }
      (deriveContext {} payloadNamesEmptyA)).dueDate = "2026-02-03"
    ∧ (buildInvoiceModel "200" "2026-02-03"
        { payloadNamesEmptyA with order_detail := { order_date_due := "2026-03-01" } }
        (deriveContext {} payloadNamesEmptyA)).dueDate = "2026-03-01"
    ∧ (buildInvoicePayloadDates (fun n => toString n) 1000 "").2 = toString 864001000 := by
  refine ⟨?_, ?_, ?_⟩
  · rw [dueDate_rules_C8.1 "200" "2026-02-03"
      { payloadNamesEmptyA with order_detail := { order_date_due := "0000-00-00" } }
      (deriveContext {} payloadNamesEmptyA) (by decide)]
    decide
  · rw [dueDate_rules_C8.1 "200" "2026-02-03"
      { payloadNamesEmptyA with order_detail := { order_date_due := "2026-03-01" } }
      (deriveContext {} payloadNamesEmptyA) (by decide)]
    decide
  · rw [(dueDate_rules_C8.2 (fun n => toString n) 1000).2]

/-! ## C1 : unconditional refresh-and-persist -/

def tokenFixture : TokenSet :=
  { access_token := some "at0", refresh_token := some "rt0",
    expires_at := some 999999, extra := [("session_state", "abc"), ("id_token", "jwt")] }

def stateFixture : XeroState := { memToken := some tokenFixture }

def refreshDataZero : RefreshData :=
  { access_token := some "at1", refresh_token := some "rt1", expires_in := some 0 }

def oracleZero : XeroOracle :=
  { refreshResult := Except.ok refreshDataZero, tenantsResult := Except.ok ["tenant-1"] }

def refreshDataA : RefreshData :=
  { access_token := some "atA", refresh_token := some "rtA", expires_in := some 1800,
    extra := [("scope", "accounting.transactions")] }

def oracleA : XeroOracle :=
  { refreshResult := Except.ok refreshDataA, tenantsResult := Except.ok ["tenant-1"] }

def refreshDataB : RefreshData :=
  { access_token := some "atB", refresh_token := some "rtB", expires_in := none }

def oracleB : XeroOracle :=
  { refreshResult := Except.ok refreshDataB, tenantsResult := Except.ok ["tenant-1", "tenant-2"] }

lemma lookup_mergeExtra (old new : List (String × String)) (k v : String)
    (hold : old.lookup k = some v)
    (hnew : (new.map Prod.fst).contains k = false) :
    (mergeExtra old new).lookup k = some v := by
  induction old with
  | nil => simp [List.lookup] at hold
  | cons kv old ih =>
    obtain ⟨a, b⟩ := kv
    by_cases hk : (k == a) = true
    · have hka : k = a := by simpa using hk
      simp only [List.lookup, hk] at hold
      have hkeep : ((new.map Prod.fst).contains a) = false := hka ▸ hnew
      simp only [mergeExtra, List.filter_cons, hkeep, Bool.not_false, if_true,
        List.cons_append, List.lookup, hk]
      exact hold
    · have hkf : (k == a) = false := by simpa using hk
      simp only [List.lookup, hkf] at hold
      have ihr := ih hold
      simp only [mergeExtra] at ihr ⊢
      rw [List.filter_cons]
      by_cases hkeep : ((new.map Prod.fst).contains a) = true
      · simp only [hkeep, Bool.not_true, Bool.false_eq_true, if_false]
        exact ihr
      · have hkeep2 : ((new.map Prod.fst).contains a) = false := by simpa using hkeep
        simp only [hkeep2, Bool.not_false, if_true, List.cons_append, List.lookup, hkf]
        exact ihr

lemma ensureXeroReady_success (nowSec : ℕ) (o : XeroOracle) (st : XeroState)
    (ts : TokenSet) (data : RefreshData) (c : String) (rest : List String)
    (hmem : st.memToken = some ts)
    (hvalid : hasValidRefreshTs ts = true)
    (hrefresh : o.refreshResult = Except.ok data)
    (htenants : o.tenantsResult = Except.ok (c :: rest)) :
    ensureXeroReady nowSec o st =
      (Except.ok c,
       { memToken := some (mergeToken ts nowSec data),
         diskToken := some (mergeToken ts nowSec data),
         tenantId := some c },
       [XeroEvent.refreshCall, XeroEvent.savedToken (mergeToken ts nowSec data)]) := by
  simp [ensureXeroReady, loadStep, hasValidRefreshOpt, hmem, hvalid, hrefresh, htenants]

/-- C1 counterexample: when the vendor declares `expires_in: 0`, the persisted
expiry is `now + 1800`, not `now + 0` — the `||` default also fires on a
declared falsy lifetime, so the claim's "now + the vendor-declared
expires_in" fails at this input. -/
theorem ensureXeroReady_expiresInZero_cex_C1 :
    (ensureXeroReady 1000 oracleZero stateFixture).2.2
      = [XeroEvent.refreshCall,
         XeroEvent.savedToken (mergeToken tokenFixture 1000 refreshDataZero)]
    ∧ refreshDataZero.expires_in = some 0
    ∧ (mergeToken tokenFixture 1000 refreshDataZero).expires_at = some 2800
    ∧ (mergeToken tokenFixture 1000 refreshDataZero).expires_at ≠ some (1000 + 0) := by
  decide

/-- C1 (amended): with a token set holding a non-empty refresh credential,
`ensureXeroReady` unconditionally calls the vendor token endpoint (no expiry
check guards the refresh), computes the new expiry as now + the
vendor-declared `expires_in` — defaulting to 1800 seconds when the vendor
omits it *or declares it as the falsy value 0* — merges the response over
the previous token record preserving previously-present unknown fields, and
persists the merged record to disk; a second sequential successful call again
refreshes and persists. -/
theorem ensureXeroReady_unconditional_C1
    (nowSec : ℕ) (o : XeroOracle) (st : XeroState)
    (ts : TokenSet) (data : RefreshData) (c : String) (rest : List String)
    (hmem : st.memToken = some ts)
    (hvalid : hasValidRefreshTs ts = true)
    (hrefresh : o.refreshResult = Except.ok data)
    (htenants : o.tenantsResult = Except.ok (c :: rest)) :
    (ensureXeroReady nowSec o st).1 = Except.ok c
    ∧ (ensureXeroReady nowSec o st).2.2
        = [XeroEvent.refreshCall, XeroEvent.savedToken (mergeToken ts nowSec data)]
    ∧ (ensureXeroReady nowSec o st).2.1.diskToken = some (mergeToken ts nowSec data)
    ∧ (ensureXeroReady nowSec o st).2.1.memToken = some (mergeToken ts nowSec data)
    ∧ (∀ n : ℕ, data.expires_in = some n → n ≠ 0 →
        (mergeToken ts nowSec data).expires_at = some (nowSec + n))
    ∧ (data.expires_in = none →
        (mergeToken ts nowSec data).expires_at = some (nowSec + 1800))
    ∧ (∀ k v : String, ts.extra.lookup k = some v →
        (data.extra.map Prod.fst).contains k = false →
        (mergeToken ts nowSec data).extra.lookup k = some v)
    ∧ (∀ (now2 : ℕ) (o2 : XeroOracle) (data2 : RefreshData) (c2 : String)
          (rest2 : List String),
        o2.refreshResult = Except.ok data2 →
        o2.tenantsResult = Except.ok (c2 :: rest2) →
        hasValidRefreshTs (mergeToken ts nowSec data) = true →
        (ensureXeroReadyTwice nowSec now2 o o2 st).2.1 = Except.ok c2
        ∧ (ensureXeroReadyTwice nowSec now2 o o2 st).2.2.2
            = [XeroEvent.refreshCall,
               XeroEvent.savedToken
                 (mergeToken (mergeToken ts nowSec data) now2 data2)]) := by
  have h1 := ensureXeroReady_success nowSec o st ts data c rest hmem hvalid hrefresh htenants
  refine ⟨by rw [h1], by rw [h1], by rw [h1], by rw [h1], ?_, ?_,
    fun k v hold hnew => lookup_mergeExtra ts.extra data.extra k v hold hnew,
    fun now2 o2 data2 c2 rest2 hr2 ht2 hv2 => ?_⟩
  · intro n hn hn0
    simp [mergeToken, hn, hn0]
  · intro hn
    simp [mergeToken, hn]
  · have h2 := ensureXeroReady_success now2 o2
      { memToken := some (mergeToken ts nowSec data),
        diskToken := some (mergeToken ts nowSec data),
        tenantId := some c }
      (mergeToken ts nowSec data) data2 c2 rest2 rfl hv2 hr2 ht2
    constructor
    · show (ensureXeroReady now2 o2 (ensureXeroReady nowSec o st).2.1).1 = _
      rw [h1, h2]
    · show (ensureXeroReady now2 o2 (ensureXeroReady nowSec o st).2.1).2.2 = _
      rw [h1, h2]

/-- C1 witness: the amended theorem applied at a concrete state whose token is
*not yet expired* (expiry 999999, call at 5000): the call still refreshes and
persists; the unknown field `"session_state"` survives the merge; and the
second sequential call refreshes and persists again. -/
theorem ensureXeroReady_unconditional_C1_witness :
    isTokenExpiredLocal tokenFixture 5000 = false
    ∧ (ensureXeroReady 5000 oracleA stateFixture).1 = Except.ok "tenant-1"
    ∧ (ensureXeroReady 5000 oracleA stateFixture).2.2
        = [XeroEvent.refreshCall,
           XeroEvent.savedToken (mergeToken tokenFixture 5000 refreshDataA)]
    ∧ (mergeToken tokenFixture 5000 refreshDataA).expires_at = some (5000 + 1800)
    ∧ (mergeToken tokenFixture 5000 refreshDataA).extra.lookup "session_state" = some "abc"
    ∧ (ensureXeroReadyTwice 5000 6000 oracleA oracleB stateFixture).2.1 = Except.ok "tenant-1"
    ∧ (ensureXeroReadyTwice 5000 6000 oracleA oracleB stateFixture).2.2.2
        = [XeroEvent.refreshCall,
           XeroEvent.savedToken
             (mergeToken (mergeToken tokenFixture 5000 refreshDataA) 6000 refreshDataB)] := by
  have h := ensureXeroReady_unconditional_C1 5000 oracleA stateFixture tokenFixture
    refreshDataA "tenant-1" [] rfl (by decide) rfl rfl
  have h2 := h.2.2.2.2.2.2.2 6000 oracleB refreshDataB "tenant-1" ["tenant-2"]
    rfl rfl (by decide)
  exact ⟨by decide, h.1, h.2.1,
    h.2.2.2.2.1 1800 rfl (by decide),
    h.2.2.2.2.2.2.1 "session_state" "abc" (by decide) (by decide),
    h2.1, h2.2⟩

/-! ## C9 : follow-up failures do not affect the invoice-creation result -/

def createdInvFixture : CreatedInvoice := { invoiceID := some "inv-1" }

def invOracleFailingFollowUps : InvOracle :=
  { ensureReady := Except.ok "tenant-1",
    createInvoices := Except.ok [createdInvFixture],
    createPayments := Except.error "payment rejected",
    emailInvoice := Except.error "email rejected" }

def payloadPaidEmail : Payload :=
  { payloadItemsFixture with
      markAsPaid := JsVal.vStr "true",
      emailCustomer := JsVal.vStr "yes",
      pl_order := { order_tot_incvat := "15.00" } }

/-- C9: whenever `ensureXeroReady` and the create-invoice call succeed,
`createInvoiceFromPlPayload` returns `success: true` with the created invoice
— for *every* payment/email oracle outcome, so a failing mark-as-paid or
email-customer follow-up (caught internally) never changes the result. -/
theorem createInvoice_followups_independent_C9
    (env : Env) (todayIso : String) (o : InvOracle) (p : Payload)
    (tid : String) (invs : List CreatedInvoice)
    (hready : o.ensureReady = Except.ok tid)
    (hcreate : o.createInvoices = Except.ok invs) :
    (createInvoiceFromPlPayload env todayIso o p).map (fun r => r.1)
      = Except.ok { success := true, invoice := invs.head?, error := none } := by
  unfold createInvoiceFromPlPayload
  rw [hready, hcreate]
  rfl

/-- C9 witness: with both follow-up calls failing and both flags set, invoice
creation still reports `success: true` with the created invoice. -/
theorem createInvoice_followups_independent_C9_witness :
    (createInvoiceFromPlPayload {} "2026-02-03" invOracleFailingFollowUps
        payloadPaidEmail).map (fun r => r.1)
      = Except.ok { success := true, invoice := some createdInvFixture, error := none } :=
  createInvoice_followups_independent_C9 {} "2026-02-03" invOracleFailingFollowUps
    payloadPaidEmail "tenant-1" [createdInvFixture] rfl rfl

/-! ## C4 : reference composition and order-number extraction -/

/-- No bracketed digit substring: there is no decomposition
`a ++ "[" ++ ds ++ "]" ++ b` with `ds` a non-empty digit run. -/
def noBracketNum (l : List Char) : Prop :=
  ¬ ∃ a ds b, l = a ++ '[' :: (ds ++ ']' :: b) ∧ ds ≠ [] ∧ ∀ c ∈ ds, c.isDigit = true

lemma takeWhile_all_append (p : Char → Bool) (l1 l2 : List Char)
    (h1 : ∀ c ∈ l1, p c = true) :
    (l1 ++ l2).takeWhile p = l1 ++ l2.takeWhile p := by
  induction l1 with
  | nil => simp
  | cons c l ih =>
    have hc : p c = true := h1 c (List.mem_cons_self c l)
    simp [List.takeWhile_cons, hc, ih fun x hx => h1 x (List.mem_cons_of_mem c hx)]

lemma dropWhile_all_append (p : Char → Bool) (l1 l2 : List Char)
    (h1 : ∀ c ∈ l1, p c = true) :
    (l1 ++ l2).dropWhile p = l2.dropWhile p := by
  induction l1 with
  | nil => simp
  | cons c l ih =>
    have hc : p c = true := h1 c (List.mem_cons_self c l)
    simp [List.dropWhile_cons, hc, ih fun x hx => h1 x (List.mem_cons_of_mem c hx)]

lemma takeWhile_append_of_stop (p : Char → Bool) (l1 l2 : List Char)
    (h : l1.dropWhile p ≠ []) :
    (l1 ++ l2).takeWhile p = l1.takeWhile p := by
  induction l1 with
  | nil => simp at h
  | cons c l ih =>
    by_cases hc : p c = true
    · rw [List.dropWhile_cons, if_pos hc] at h
      simp [List.takeWhile_cons, hc, ih h]
    · have hcf : p c = false := by simpa using hc
      simp [List.takeWhile_cons, hcf]

lemma dropWhile_append_of_stop (p : Char → Bool) (l1 l2 : List Char)
    (h : l1.dropWhile p ≠ []) :
    (l1 ++ l2).dropWhile p = l1.dropWhile p ++ l2 := by
  induction l1 with
  | nil => simp at h
  | cons c l ih =>
    by_cases hc : p c = true
    · rw [List.dropWhile_cons, if_pos hc] at h
      simp [List.dropWhile_cons, hc, ih h]
    · have hcf : p c = false := by simpa using hc
      simp [List.dropWhile_cons, hcf]

lemma bracketAt_not_bracket {c : Char} (hc : ¬ c = '[') (l : List Char) :
    bracketAt (c :: l) = none := by
  simp [bracketAt, hc]

lemma bracketAt_exact (ds tl : List Char) (hne : ds ≠ [])
    (hdig : ∀ c ∈ ds, c.isDigit = true) :
    bracketAt ('[' :: (ds ++ ']' :: tl)) = some ds := by
  have hrb : (']' : Char).isDigit = false := by decide
  have ht : (ds ++ ']' :: tl).takeWhile Char.isDigit = ds := by
    rw [takeWhile_all_append _ ds (']' :: tl) hdig]
    simp [List.takeWhile_cons, hrb]
  have hd : (ds ++ ']' :: tl).dropWhile Char.isDigit = ']' :: tl := by
    rw [dropWhile_all_append _ ds (']' :: tl) hdig]
    simp [List.dropWhile_cons, hrb]
  simp [bracketAt, ht, hd, hne]

lemma bracketAt_some_inv {l ds : List Char} (h : bracketAt l = some ds) :
    ∃ tl, l = '[' :: (ds ++ ']' :: tl) ∧ ds ≠ [] ∧ ∀ c ∈ ds, c.isDigit = true := by
  match l with
  | [] => simp [bracketAt] at h
  | c :: rest =>
    by_cases hc : c = '['
    · subst hc
      rw [bracketAt, if_pos rfl] at h
      by_cases hcond : rest.takeWhile Char.isDigit ≠ []
          ∧ (rest.dropWhile Char.isDigit).head? = some ']'
      · rw [if_pos hcond] at h
        obtain ⟨hne, hhead⟩ := hcond
        have hds : rest.takeWhile Char.isDigit = ds := by injection h
        obtain ⟨tl, htl⟩ : ∃ tl, rest.dropWhile Char.isDigit = ']' :: tl := by
          cases hdw : rest.dropWhile Char.isDigit with
          | nil => rw [hdw] at hhead; simp at hhead
          | cons x t =>
            rw [hdw] at hhead
            simp only [List.head?_cons, Option.some.injEq] at hhead
            exact ⟨t, by rw [hhead]⟩
        refine ⟨tl, ?_, hds ▸ hne, fun c hc2 => List.mem_takeWhile_imp (hds ▸ hc2)⟩
        have := (List.takeWhile_append_dropWhile (p := Char.isDigit) (l := rest)).symm
        rw [hds, htl] at this
        rw [← this]
      · rw [if_neg hcond] at h
        exact absurd h (by simp)
    · rw [bracketAt_not_bracket hc] at h
      exact absurd h (by simp)

lemma findBracket_cons (c : Char) (rest : List Char) :
    findBracket (c :: rest) =
      (match bracketAt (c :: rest) with
       | some ds => some ds
       | none => findBracket rest) := rfl

lemma findBracket_some_decomp {l ds : List Char} (h : findBracket l = some ds) :
    ∃ a b, l = a ++ '[' :: (ds ++ ']' :: b) ∧ ds ≠ [] ∧ ∀ c ∈ ds, c.isDigit = true := by
  induction l with
  | nil => simp [findBracket] at h
  | cons c rest ih =>
    rw [findBracket_cons] at h
    cases hb : bracketAt (c :: rest) with
    | some ds2 =>
      rw [hb] at h
      have hds : ds2 = ds := by injection h
      subst hds
      obtain ⟨tl, heq, hne, hdig⟩ := bracketAt_some_inv hb
      exact ⟨[], tl, by simpa using heq, hne, hdig⟩
    | none =>
      rw [hb] at h
      obtain ⟨a, b, heq, hne, hdig⟩ := ih h
      exact ⟨c :: a, b, by simp [heq], hne, hdig⟩

lemma findBracket_ne_none_of_decomp (a ds b : List Char) (hne : ds ≠ [])
    (hdig : ∀ c ∈ ds, c.isDigit = true) :
    findBracket (a ++ '[' :: (ds ++ ']' :: b)) ≠ none := by
  induction a with
  | nil =>
    rw [List.nil_append, findBracket_cons, bracketAt_exact ds b hne hdig]
    simp
  | cons c a ih =>
    rw [List.cons_append, findBracket_cons]
    cases hb : bracketAt (c :: (a ++ '[' :: (ds ++ ']' :: b))) with
    | some ds2 => simp
    | none => simpa using ih

lemma noBracketNum_of_findBracket_none {l : List Char}
    (h : findBracket l = none) : noBracketNum l := by
  rintro ⟨a, ds, b, heq, hne, hdig⟩
  exact findBracket_ne_none_of_decomp a ds b hne hdig (heq ▸ h)

lemma findBracket_none_of_noBracketNum {l : List Char} (hl : noBracketNum l) :
    findBracket l = none := by
  cases h : findBracket l with
  | none => rfl
  | some ds =>
    obtain ⟨a, b, heq, hne, hdig⟩ := findBracket_some_decomp h
    exact absurd ⟨a, ds, b, heq, hne, hdig⟩ hl

lemma findBracket_clean_append (l ds : List Char) (hne : ds ≠ [])
    (hdig : ∀ c ∈ ds, c.isDigit = true) (hl : noBracketNum l) :
    findBracket (l ++ ' ' :: '[' :: (ds ++ [']'])) = some ds := by
  induction l with
  | nil =>
    rw [List.nil_append, findBracket_cons, bracketAt_not_bracket (by decide)]
    rw [findBracket_cons, bracketAt_exact ds [] hne hdig]
  | cons c rest ih =>
    have hrest : noBracketNum rest := by
      rintro ⟨a, ds2, b, heq, hne2, hdig2⟩
      exact hl ⟨c :: a, ds2, b, by simp [heq], hne2, hdig2⟩
    rw [List.cons_append, findBracket_cons]
    have hba : bracketAt (c :: (rest ++ ' ' :: '[' :: (ds ++ [']']))) = none := by
      by_cases hc : c = '['
      · subst hc
        rw [bracketAt, if_pos rfl, if_neg]
        rintro ⟨hne2, hhead⟩
        cases hdw : rest.dropWhile Char.isDigit with
        | nil =>
          have hall : ∀ x ∈ rest, Char.isDigit x = true := by
            simpa using List.dropWhile_eq_nil_iff.mp hdw
          rw [dropWhile_all_append Char.isDigit rest _ hall] at hhead
          have hsp : (' ' : Char).isDigit = false := by decide
          simp [List.dropWhile_cons, hsp] at hhead
        | cons x t =>
          have hstop : rest.dropWhile Char.isDigit ≠ [] := by rw [hdw]; simp
          rw [dropWhile_append_of_stop _ _ _ hstop, hdw] at hhead
          simp only [List.cons_append, List.head?_cons, Option.some.injEq] at hhead
          rw [takeWhile_append_of_stop _ _ _ hstop] at hne2
          refine hl ⟨[], rest.takeWhile Char.isDigit, t, ?_, hne2,
            fun c hc2 => List.mem_takeWhile_imp hc2⟩
          have := (List.takeWhile_append_dropWhile (p := Char.isDigit) (l := rest)).symm
          rw [hdw, hhead] at this
          rw [List.nil_append, ← this]
      · exact bracketAt_not_bracket hc _
    rw [hba]
    exact ih hrest

lemma buildReference_both {po num : String} (hpo : po ≠ "") (hnum : num ≠ "") :
    buildReference po num = po ++ " " ++ "[" ++ num ++ "]" := by
  apply String.ext
  simp [buildReference, joinSpace, hpo, hnum, String.data_append]

lemma buildReference_po_only {po : String} (hpo : po ≠ "") :
    buildReference po "" = po := by
  simp [buildReference, joinSpace, hpo]

lemma buildReference_num_only {num : String} (hnum : num ≠ "") :
    buildReference "" num = "[" ++ num ++ "]" := by
  simp [buildReference, joinSpace, hnum]

lemma data_reference_both {po num : String} (hpo : po ≠ "") (hnum : num ≠ "") :
    (buildReference po num).data = po.data ++ ' ' :: '[' :: (num.data ++ [']']) := by
  rw [buildReference_both hpo hnum]
  have h1 : (" " : String).data = [' '] := rfl
  have h2 : ("[" : String).data = ['['] := rfl
  have h3 : ("]" : String).data = [']'] := rfl
  simp [String.data_append, h1, h2, h3]

lemma data_reference_num {num : String} (hnum : num ≠ "") :
    (buildReference "" num).data = '[' :: (num.data ++ [']']) := by
  rw [buildReference_num_only hnum]
  have h2 : ("[" : String).data = ['['] := rfl
  have h3 : ("]" : String).data = [']'] := rfl
  simp [String.data_append, h2, h3]

lemma string_ne_empty_of_data_ne_nil {s : String} (h : s.data ≠ []) : s ≠ "" :=
  fun he => h (by rw [he])


/-- C4: the reference built by `buildInvoiceModel` is `"<PO> [<order_number>]"` when both
parts are present, the PO alone when only it is present, `"[<order_number>]"`
when only the order number is present, and `""` when neither is; for every
payload whose order number is a non-empty digit string and whose PO contains
no bracketed digit substring, `extractOrderNumberFromReference` applied to
the composed reference recovers exactly the order number; and a reference
with no bracketed number yields `none`. -/
theorem reference_roundtrip_C4 :
    (∀ po num : String, po ≠ "" → num ≠ "" →
      buildReference po num = po ++ " " ++ "[" ++ num ++ "]")
    ∧ (∀ po : String, po ≠ "" → buildReference po "" = po)
    ∧ (∀ num : String, num ≠ "" → buildReference "" num = "[" ++ num ++ "]")
    ∧ buildReference "" "" = ""
    ∧ (∀ acct todayIso : String, ∀ (p : Payload) (ctx : DerivedContext),
        (buildInvoiceModel acct todayIso p ctx).reference
          = buildReference p.order_po p.order_number)
    ∧ (∀ po num : String, num.data ≠ [] → (∀ c ∈ num.data, c.isDigit = true) →
        noBracketNum po.data →
        extractOrderNumberFromReference (buildReference po num) = some num)
    ∧ (∀ ref : String, noBracketNum ref.data →
        extractOrderNumberFromReference ref = none) := by
  refine ⟨fun po num hpo hnum => buildReference_both hpo hnum,
    fun po hpo => buildReference_po_only hpo,
    fun num hnum => buildReference_num_only hnum,
    rfl,
    fun acct todayIso p ctx => rfl,
    fun po num hnum hdig hpo => ?_,
    fun ref href => ?_⟩
  · have hnumS : num ≠ "" := string_ne_empty_of_data_ne_nil hnum
    by_cases hpoS : po = ""
    · subst hpoS
      unfold extractOrderNumberFromReference
      rw [data_reference_num hnumS, findBracket_cons,
        bracketAt_exact num.data [] hnum hdig]
      rfl
    · unfold extractOrderNumberFromReference
      rw [data_reference_both hpoS hnumS,
        findBracket_clean_append po.data num.data hnum hdig hpo]
      rfl
  · unfold extractOrderNumberFromReference
    rw [findBracket_none_of_noBracketNum href]
    rfl

/-- C4 witness: the theorem applied at the spec's concrete examples —
`("WEB-1532TEST", "6662")` composes to `"WEB-1532TEST [6662]"` and extracts
back to `"6662"`; `("", "6663")` composes to `"[6663]"` and extracts to
`"6663"`; a bracketless reference extracts to `none`. -/
theorem reference_roundtrip_C4_witness :
    buildReference "WEB-1532TEST" "6662" = "WEB-1532TEST [6662]"
    ∧ extractOrderNumberFromReference (buildReference "WEB-1532TEST" "6662")
        = some "6662"
    ∧ buildReference "" "6663" = "[6663]"
    ∧ extractOrderNumberFromReference (buildReference "" "6663") = some "6663"
    ∧ extractOrderNumberFromReference "WEB-1532TEST" = none := by
  have hclean : noBracketNum "WEB-1532TEST".data :=
    noBracketNum_of_findBracket_none (by decide)
  have hempty : noBracketNum ("" : String).data :=
    noBracketNum_of_findBracket_none (by decide)
  refine ⟨?_, ?_, ?_, ?_, ?_⟩
  · rw [reference_roundtrip_C4.1 "WEB-1532TEST" "6662" (by decide) (by decide)]
    decide
  · exact reference_roundtrip_C4.2.2.2.2.2.1 "WEB-1532TEST" "6662" (by decide)
      (by decide) hclean
  · rw [reference_roundtrip_C4.2.2.1 "6663" (by decide)]
    decide
  · exact reference_roundtrip_C4.2.2.2.2.2.1 "" "6663" (by decide) (by decide) hempty
  · exact reference_roundtrip_C4.2.2.2.2.2.2 "WEB-1532TEST" hclean

end PLXero
